import Mathlib

/-!
# Verification of the Nickflix seat-selection and order-aggregation subsystem

Shallow embedding of the seat-selection, ticket-reconciliation, order-queue
and batch-checkout logic of the Nickflix storefront, together with proofs
of the testable properties stated in its specification.

The embedding follows the TypeScript source:
* `SeatSelector.tsx` — seat model, `handleSeatClick` (viewer toggle and
  editor repaint).
* `TicketCheckout` (in the bundled `Footer.tsx`) — pricing generation,
  quantity adjustment, totals, checkout.
* `ticketOrderService` — order-queue persistence over a local key-value
  store (JSON serialization modelled by an explicit decoder argument).
* `BatchCheckout.tsx` — order selection and pruning before settlement.

Numeric values (JS `number`) are modelled as rationals; quantities and seat
counts, which the code keeps non-negative, as naturals with explicit `Int`
arithmetic where the code adds signed deltas.
-/

/-- `SeatStatus`: the five seat states of `SeatSelector.tsx`. -/
inductive SeatStatus
  | available
  | selected
  | occupied
  | accessible
  | empty
deriving DecidableEq, Repr

/-- `Seat` record from `SeatSelector.tsx`. -/
structure Seat where
  id : String
  row : String
  number : Nat
  status : SeatStatus
  originalStatus : SeatStatus
deriving DecidableEq, Repr

/-- The in-memory state of the `SeatSelector` component that the click
handler touches: the seat list and the derived selected-seat list. -/
structure SelectorState where
  seats : List Seat
  selectedSeats : List Seat
deriving DecidableEq, Repr

/-- Editor branch of `handleSeatClick`: repaint the clicked seat's `status`
to the current edit status, leaving every other field and seat alone. -/
def paintSeat (currentEditStatus : SeatStatus) (seat : Seat)
    (st : SelectorState) : SelectorState :=
  { st with
    seats := st.seats.map fun s =>
      if s.id = seat.id then { s with status := currentEditStatus } else s }

/-- Viewer branch of `handleSeatClick`: refuse seats that are not
available/accessible/selected; otherwise toggle the clicked seat between
`selected` and its revert status (decided by `originalStatus`), and
recompute `selectedSeats` as the seats whose status is `selected`. -/
def selectSeat (seat : Seat) (st : SelectorState) : SelectorState :=
  if seat.status ≠ .available ∧ seat.status ≠ .accessible ∧
      seat.status ≠ .selected then
    st
  else
    let updatedSeats := st.seats.map fun s =>
      if s.id = seat.id then
        { s with
          status :=
            if s.status = .selected then
              if s.originalStatus = .accessible then .accessible
              else .available
            else .selected }
      else s
    { seats := updatedSeats
      selectedSeats := updatedSeats.filter fun s => s.status = .selected }

/-- Helper: a map that fixes every element of a list leaves it unchanged. -/
theorem list_map_eq_self {α : Type} (l : List α) (f : α → α)
    (h : ∀ a ∈ l, f a = a) : l.map f = l := by
  induction l with
  | nil => rfl
  | cons x xs ih =>
    simp only [List.map_cons, List.cons.injEq]
    exact ⟨h x (List.mem_cons_self x xs), ih fun a ha => h a (List.mem_cons_of_mem x ha)⟩

/-- C4: selecting an `occupied` or `empty` seat in viewer mode is a no-op:
the whole selector state (every seat's status and the `selectedSeats`
list) is unchanged. -/
theorem selectSeat_noop_occupied_empty (seat : Seat) (st : SelectorState)
    (h : seat.status = .occupied ∨ seat.status = .empty) :
    selectSeat seat st = st := by
  unfold selectSeat
  rcases h with h | h <;> simp [h]

/-- Helper: updating a seat's `status` and `originalStatus` with their
current values yields the same seat. -/
theorem seat_update_eq_self (s : Seat) (x y : SeatStatus) (hx : x = s.status)
    (hy : y = s.originalStatus) :
    ({ s with status := x, originalStatus := y } : Seat) = s := by
  cases s
  subst hx
  subst hy
  rfl

/-- A seat repainted by the editor: its `status` was painted `available`
while its `originalStatus` still records `accessible`. -/
def repaintedSeat : Seat :=
  { id := "D5", row := "D", number := 5
    status := .available, originalStatus := .accessible }

/-- C3 counterexample: for the editor-repainted seat `D5` (status
`available`, `originalStatus` `accessible`), selecting and then deselecting
ends with status `accessible`, not the pre-toggle status `available` — the
round-trip law fails as stated. -/
theorem selectSeat_roundTrip_counterexample :
    (selectSeat { repaintedSeat with status := .selected }
        (selectSeat repaintedSeat ⟨[repaintedSeat], []⟩)).seats.map Seat.status
      = [SeatStatus.accessible] ∧
    repaintedSeat.status = SeatStatus.available ∧
    SeatStatus.accessible ≠ SeatStatus.available := by
  refine ⟨by decide, rfl, by decide⟩

/-- C3 (amended): for a seat selectable in viewer mode whose status agrees
with its `originalStatus` on accessibility (in particular any seat the
editor has not repainted), select followed by deselect restores the seat
list exactly, neither toggle changes any seat's `originalStatus`, and after
each toggle `selectedSeats` is exactly the set of seats with status
`selected`. -/
theorem selectSeat_roundTrip (st : SelectorState) (s0 : Seat)
    (hsel : s0.status = .available ∨ s0.status = .accessible)
    (huniq : ∀ s ∈ st.seats, s.id = s0.id → s = s0)
    (hagree : s0.status = .accessible ↔ s0.originalStatus = .accessible) :
    (selectSeat { s0 with status := .selected } (selectSeat s0 st)).seats
        = st.seats ∧
    (selectSeat s0 st).seats.map Seat.originalStatus
        = st.seats.map Seat.originalStatus ∧
    (selectSeat { s0 with status := .selected } (selectSeat s0 st)).seats.map
        Seat.originalStatus = st.seats.map Seat.originalStatus ∧
    (selectSeat s0 st).selectedSeats
        = (selectSeat s0 st).seats.filter (fun s => s.status = .selected) ∧
    (selectSeat { s0 with status := .selected } (selectSeat s0 st)).selectedSeats
        = (selectSeat { s0 with status := .selected }
            (selectSeat s0 st)).seats.filter (fun s => s.status = .selected) := by
  have hns : s0.status ≠ .selected := by
    rcases hsel with h | h <;> simp [h]
  have hguard1 : ¬(s0.status ≠ .available ∧ s0.status ≠ .accessible ∧
      s0.status ≠ .selected) := by
    rcases hsel with h | h <;> simp [h]
  have hstep1 : (selectSeat s0 st).seats = st.seats.map fun s =>
      if s.id = s0.id then
        { s with
          status :=
            if s.status = .selected then
              if s.originalStatus = .accessible then .accessible
              else .available
            else .selected }
      else s := by
    unfold selectSeat
    rw [if_neg hguard1]
  have hsel1 : (selectSeat s0 st).selectedSeats =
      (selectSeat s0 st).seats.filter (fun s => s.status = .selected) := by
    unfold selectSeat
    rw [if_neg hguard1]
  have hguard2 : ¬((SeatStatus.selected : SeatStatus) ≠ .available ∧
      (SeatStatus.selected : SeatStatus) ≠ .accessible ∧
      (SeatStatus.selected : SeatStatus) ≠ .selected) := by
    simp
  have hstep2 : ∀ st' : SelectorState,
      (selectSeat { s0 with status := .selected } st').seats = st'.seats.map fun s =>
        if s.id = s0.id then
          { s with
            status :=
              if s.status = .selected then
                if s.originalStatus = .accessible then .accessible
                else .available
              else .selected }
        else s := by
    intro st'
    unfold selectSeat
    rw [if_neg hguard2]
  have hsel2 : ∀ st' : SelectorState,
      (selectSeat { s0 with status := .selected } st').selectedSeats =
        (selectSeat { s0 with status := .selected } st').seats.filter
          (fun s => s.status = .selected) := by
    intro st'
    unfold selectSeat
    rw [if_neg hguard2]
  have hmain : (selectSeat { s0 with status := .selected }
      (selectSeat s0 st)).seats = st.seats := by
    rw [hstep2, hstep1, List.map_map]
    apply list_map_eq_self
    intro s hs
    by_cases hid : s.id = s0.id
    · have hseq : s = s0 := huniq s hs hid
      subst hseq
      simp only [Function.comp_apply, if_pos rfl, if_neg hns]
      rcases hsel with h | h
      · have hno : s.originalStatus ≠ .accessible := fun hc => by
          have := hagree.mpr hc
          rw [h] at this
          exact absurd this (by decide)
        simp [if_neg hno, h]
        exact seat_update_eq_self s _ _ h.symm rfl
      · have hyes : s.originalStatus = .accessible := hagree.mp h
        simp [hyes, h]
        exact seat_update_eq_self s _ _ h.symm hyes.symm
    · simp [Function.comp_apply, if_neg hid]
  have horig1 : (selectSeat s0 st).seats.map Seat.originalStatus
      = st.seats.map Seat.originalStatus := by
    rw [hstep1, List.map_map]
    apply List.map_congr_left
    intro s _
    by_cases hid : s.id = s0.id <;> simp [hid]
  have horig2 : (selectSeat { s0 with status := .selected }
      (selectSeat s0 st)).seats.map Seat.originalStatus
      = st.seats.map Seat.originalStatus := by
    rw [hmain]
  exact ⟨hmain, horig1, horig2, hsel1, hsel2 _⟩

/-- Witness for `selectSeat_roundTrip` at a concrete untouched available
seat `H5`. -/
theorem selectSeat_roundTrip_witness :
    (selectSeat { (Seat.mk "H5" "H" 5 .available .available) with
        status := .selected }
      (selectSeat (Seat.mk "H5" "H" 5 .available .available)
        ⟨[Seat.mk "H5" "H" 5 .available .available], []⟩)).seats
      = [Seat.mk "H5" "H" 5 .available .available] :=
  (selectSeat_roundTrip ⟨[Seat.mk "H5" "H" 5 .available .available], []⟩
    (Seat.mk "H5" "H" 5 .available .available)
    (Or.inl rfl)
    (by intro s hs _; simpa using hs)
    (by decide)).1

/-- C9: editor repaint sets only the clicked seat's `status` to the edit
status (its `originalStatus` keeps its prior value and every other seat is
untouched), and a later viewer select-then-deselect of the repainted seat
reverts using the pre-edit `originalStatus`, not the painted status. -/
theorem paintSeat_frame_and_revert (st : SelectorState) (t : Seat)
    (es : SeatStatus) :
    (∀ i : Nat, (paintSeat es t st).seats[i]? =
        (st.seats[i]?).map fun s =>
          if s.id = t.id then { s with status := es } else s) ∧
    (paintSeat es t st).seats.map Seat.originalStatus
        = st.seats.map Seat.originalStatus ∧
    ((es = .available ∨ es = .accessible) →
      (selectSeat { t with status := .selected }
          (selectSeat { t with status := es } (paintSeat es t st))).seats
        = st.seats.map fun s =>
            if s.id = t.id then
              { s with
                status :=
                  if s.originalStatus = .accessible then .accessible
                  else .available }
            else s) := by
  refine ⟨?_, ?_, ?_⟩
  · intro i
    simp [paintSeat]
  · unfold paintSeat
    simp only [List.map_map]
    apply List.map_congr_left
    intro s _
    by_cases hid : s.id = t.id <;> simp [hid]
  · intro hes
    have hguard1 : ¬((es : SeatStatus) ≠ .available ∧
        (es : SeatStatus) ≠ .accessible ∧ (es : SeatStatus) ≠ .selected) := by
      rcases hes with h | h <;> simp [h]
    have hesns : es ≠ .selected := by
      rcases hes with h | h <;> simp [h]
    have hguard2 : ¬((SeatStatus.selected : SeatStatus) ≠ .available ∧
        (SeatStatus.selected : SeatStatus) ≠ .accessible ∧
        (SeatStatus.selected : SeatStatus) ≠ .selected) := by
      simp
    have hstep1 : (selectSeat { t with status := es }
        (paintSeat es t st)).seats = (paintSeat es t st).seats.map fun s =>
          if s.id = t.id then
            { s with
              status :=
                if s.status = .selected then
                  if s.originalStatus = .accessible then .accessible
                  else .available
                else .selected }
          else s := by
      unfold selectSeat
      rw [if_neg hguard1]
    have hstep2 : (selectSeat { t with status := .selected }
        (selectSeat { t with status := es } (paintSeat es t st))).seats =
          (selectSeat { t with status := es } (paintSeat es t st)).seats.map
            fun s =>
              if s.id = t.id then
                { s with
                  status :=
                    if s.status = .selected then
                      if s.originalStatus = .accessible then .accessible
                      else .available
                    else .selected }
              else s := by
      unfold selectSeat
      rw [if_neg hguard2]
    rw [hstep2, hstep1]
    unfold paintSeat
    simp only [List.map_map]
    apply List.map_congr_left
    intro s _
    by_cases hid : s.id = t.id
    · simp [hid, hesns]
    · simp [hid]

/-- Witness for `paintSeat_frame_and_revert` at a concrete state: an
accessible seat repainted to `available`, then selected and deselected,
ends `accessible` again (pre-edit `originalStatus`), not `available`. -/
theorem paintSeat_frame_and_revert_witness :
    (selectSeat { (Seat.mk "E5" "E" 5 .accessible .accessible) with
          status := .selected }
        (selectSeat { (Seat.mk "E5" "E" 5 .accessible .accessible) with
            status := .available }
          (paintSeat .available (Seat.mk "E5" "E" 5 .accessible .accessible)
            ⟨[Seat.mk "E5" "E" 5 .accessible .accessible], []⟩))).seats
      = [Seat.mk "E5" "E" 5 .accessible .accessible] := by
  have h := (paintSeat_frame_and_revert
    ⟨[Seat.mk "E5" "E" 5 .accessible .accessible], []⟩
    (Seat.mk "E5" "E" 5 .accessible .accessible) .available).2.2 (Or.inl rfl)
  simpa using h

/-- Witness for `selectSeat_noop_occupied_empty` at a concrete occupied
seat and state. -/
theorem selectSeat_noop_occupied_empty_witness :
    selectSeat (Seat.mk "A1" "A" 1 .occupied .occupied)
      ⟨[Seat.mk "A1" "A" 1 .occupied .occupied], []⟩ =
      ⟨[Seat.mk "A1" "A" 1 .occupied .occupied], []⟩ :=
  selectSeat_noop_occupied_empty _ _ (Or.inl rfl)

/-! ## TicketCheckout: pricing, quantity reconciliation, totals, checkout -/

/-- `AgeCategory` from `TicketCheckout`. -/
inductive AgeCategory
  | adult
  | teen
  | child
deriving DecidableEq, Repr

/-- `movieId: string | number` from the TypeScript interfaces. -/
inductive MovieId
  | str (s : String)
  | num (n : Nat)
deriving DecidableEq, Repr

/-- `TicketPrice` record. JS numbers are modelled as rationals. -/
structure TicketPrice where
  category : AgeCategory
  price : ℚ
  label : String
deriving DecidableEq, Repr

/-- `TicketSelection` record; the code keeps quantities non-negative. -/
structure TicketSelection where
  category : AgeCategory
  quantity : Nat
deriving DecidableEq, Repr

/-- `MoviePricing` record. -/
structure MoviePricing where
  movieId : MovieId
  movieTitle : String
  basePrice : ℚ
  taxRate : ℚ
  tickets : List TicketPrice
deriving DecidableEq, Repr

/-- `generateMoviePricing`: base price `10 + Math.floor(Math.random()*5)`
(the random draw is modelled by the `rand` parameter reduced mod 5), a
fixed 8% tax rate, and the three category prices at 1×, 0.85× and 0.6× of
the base. -/
def generateMoviePricing (movieId : MovieId) (movieTitle : String)
    (rand : Nat) : MoviePricing :=
  let basePrice : ℚ := 10 + (rand % 5)
  let taxRate : ℚ := 8 / 100
  { movieId, movieTitle, basePrice, taxRate
    tickets :=
      [⟨.adult, basePrice, "Adult"⟩,
       ⟨.teen, basePrice * (85 / 100), "Teen (13-17)"⟩,
       ⟨.child, basePrice * (60 / 100), "Child (3-12)"⟩] }

/-- The reconciler state the `TicketCheckout` component holds: the
selected seats handed in by the seat selector and the per-category ticket
selections. -/
structure CheckoutState where
  selectedSeats : List Seat
  ticketSelections : List TicketSelection
deriving DecidableEq, Repr

/-- `totalTicketsSelected`: the reduce over selection quantities. -/
def totalTicketsSelected (ticketSelections : List TicketSelection) : Nat :=
  ticketSelections.foldl (fun sum selection => sum + selection.quantity) 0

/-- `updateTicketQuantity(category, change)`: clamp the new quantity at a
floor of 0 and apply it only when the increment stays within the seat
count or the change is a decrement. -/
def updateTicketQuantity (st : CheckoutState) (category : AgeCategory)
    (change : Int) : CheckoutState :=
  { st with
    ticketSelections := st.ticketSelections.map fun selection =>
      if selection.category = category then
        let newQuantity : Nat := ((selection.quantity : Int) + change).toNat
        if (totalTicketsSelected st.ticketSelections : Int) + change ≤
              st.selectedSeats.length ∨ change < 0 then
          { selection with quantity := newQuantity }
        else selection
      else selection }

/-- The `{subtotal, tax, total}` record. -/
structure Totals where
  subtotal : ℚ
  tax : ℚ
  total : ℚ
deriving DecidableEq, Repr

/-- `calculateTotals`: subtotal as the reduce of `price × quantity` looked
up per category (0 when the category is missing from the table), tax as
`subtotal × taxRate`, total as their sum. -/
def calculateTotals (pricing : MoviePricing)
    (ticketSelections : List TicketSelection) : Totals :=
  let subtotal := ticketSelections.foldl
    (fun sum selection =>
      sum +
        (match pricing.tickets.find?
            (fun t => t.category = selection.category) with
         | some t => t.price
         | none => 0) * (selection.quantity : ℚ)) 0
  let tax := subtotal * pricing.taxRate
  { subtotal, tax, total := subtotal + tax }

/-- `CheckoutData` record produced by a successful checkout. -/
structure CheckoutData where
  movieId : MovieId
  movieTitle : String
  selectedSeats : List Seat
  ticketSelections : List TicketSelection
  pricing : Totals
deriving DecidableEq, Repr

/-- The error taxonomy entry raised by a ticket/seat count mismatch. -/
inductive CheckoutError
  | countMismatch
deriving DecidableEq, Repr

/-- `handleCheckout`: refuse with `CountMismatchError` when the ticket sum
differs from the seat count, else surface the `CheckoutData`. Neither
branch calls a state setter, which the pair result records. -/
def handleCheckout (movieId : MovieId) (movieTitle : String)
    (st : CheckoutState) (totals : Totals) :
    CheckoutState × Except CheckoutError CheckoutData :=
  if totalTicketsSelected st.ticketSelections ≠ st.selectedSeats.length then
    (st, .error .countMismatch)
  else
    (st, .ok
      { movieId, movieTitle
        selectedSeats := st.selectedSeats
        ticketSelections := st.ticketSelections
        pricing := totals })

/-- The checkout button's `disabled` condition:
`totalTicketsSelected !== selectedSeats.length || totalTicketsSelected === 0`. -/
def checkoutButtonDisabled (st : CheckoutState) : Bool :=
  totalTicketsSelected st.ticketSelections ≠ st.selectedSeats.length ∨
    totalTicketsSelected st.ticketSelections = 0

/-- The checkout button is usable exactly when not disabled. -/
def checkoutButtonEnabled (st : CheckoutState) : Bool :=
  !checkoutButtonDisabled st

/-- A reconciler state with no seats and all-zero selections. -/
def emptyCheckoutState : CheckoutState :=
  { selectedSeats := []
    ticketSelections := [⟨.adult, 0⟩, ⟨.teen, 0⟩, ⟨.child, 0⟩] }

/-- C1 counterexample: with no seats selected and all quantities zero the
ticket sum equals the seat count but is not positive, yet `handleCheckout`
succeeds with a `CheckoutData` instead of raising `CountMismatchError` —
the `> 0` half of the claimed iff is not checked by checkout itself. -/
theorem handleCheckout_counterexample :
    (handleCheckout (.num 1) "M" emptyCheckoutState ⟨0, 0, 0⟩).2 =
      .ok
        { movieId := .num 1, movieTitle := "M", selectedSeats := []
          ticketSelections := emptyCheckoutState.ticketSelections
          pricing := ⟨0, 0, 0⟩ } ∧
    ¬ 0 < totalTicketsSelected emptyCheckoutState.ticketSelections := by
  exact ⟨rfl, by decide⟩

/-- C1 (amended): `handleCheckout` succeeds with the `CheckoutData`
(movieId, movieTitle, selectedSeats, ticketSelections, totals) iff the
ticket sum equals the seat count — including the degenerate 0 = 0 case —
and otherwise raises `CountMismatchError`; in both branches
`ticketSelections` (the whole state) is untouched. The `sum > 0`
requirement is enforced only by the checkout button, which is enabled iff
the sum matches the seat count and is positive. -/
theorem handleCheckout_spec (movieId : MovieId) (movieTitle : String)
    (st : CheckoutState) (totals : Totals) :
    (handleCheckout movieId movieTitle st totals).1 = st ∧
    (totalTicketsSelected st.ticketSelections = st.selectedSeats.length →
      (handleCheckout movieId movieTitle st totals).2 =
        .ok
          { movieId, movieTitle, selectedSeats := st.selectedSeats
            ticketSelections := st.ticketSelections, pricing := totals }) ∧
    (totalTicketsSelected st.ticketSelections ≠ st.selectedSeats.length →
      (handleCheckout movieId movieTitle st totals).2 =
        .error .countMismatch) ∧
    (checkoutButtonEnabled st = true ↔
      totalTicketsSelected st.ticketSelections = st.selectedSeats.length ∧
        0 < totalTicketsSelected st.ticketSelections) := by
  refine ⟨?_, ?_, ?_, ?_⟩
  · unfold handleCheckout
    split <;> rfl
  · intro h
    unfold handleCheckout
    rw [if_neg (by simpa using h)]
  · intro h
    unfold handleCheckout
    rw [if_pos h]
  · unfold checkoutButtonEnabled checkoutButtonDisabled
    simp [Nat.pos_iff_ne_zero]

/-- Witness for `handleCheckout_spec` at a one-seat, one-adult-ticket
state: checkout succeeds with the expected data. -/
theorem handleCheckout_spec_witness :
    (handleCheckout (.num 7) "Dune"
        ⟨[Seat.mk "A1" "A" 1 .selected .available], [⟨.adult, 1⟩]⟩
        ⟨10, 4/5, 54/5⟩).2 =
      .ok
        { movieId := .num 7, movieTitle := "Dune"
          selectedSeats := [Seat.mk "A1" "A" 1 .selected .available]
          ticketSelections := [⟨.adult, 1⟩]
          pricing := ⟨10, 4/5, 54/5⟩ } :=
  (handleCheckout_spec (.num 7) "Dune"
    ⟨[Seat.mk "A1" "A" 1 .selected .available], [⟨.adult, 1⟩]⟩
    ⟨10, 4/5, 54/5⟩).2.1 (by decide)

/-- The seat-change effect's default selections: the first (adult)
category absorbs the seat count capped at 4, the others are zeroed. -/
def resetSelections (tickets : List TicketPrice) (n : Nat) :
    List TicketSelection :=
  tickets.map fun ticket =>
    ⟨ticket.category, if ticket.category = .adult then min n 4 else 0⟩

/-- The `selectedSeats`-change effect: when the new selection is nonempty
the category quantities are reset to the capped default; an empty new
selection leaves the previous quantities in place. -/
def seatsChanged (pricing : MoviePricing) (newSeats : List Seat)
    (st : CheckoutState) : CheckoutState :=
  { selectedSeats := newSeats
    ticketSelections :=
      if newSeats.length > 0 then
        resetSelections pricing.tickets newSeats.length
      else st.ticketSelections }

/-- The `useState` initializer of `ticketSelections`: one adult ticket per
selected seat (uncapped), zero for the other categories. -/
def initialCheckoutState (pricing : MoviePricing) (seats : List Seat) :
    CheckoutState :=
  { selectedSeats := seats
    ticketSelections := pricing.tickets.map fun ticket =>
      ⟨ticket.category, if ticket.category = .adult then seats.length else 0⟩ }

/-- Reconciler states reachable by mounting, seat-selection changes and
quantity adjustments. -/
inductive ReachableCheckout (pricing : MoviePricing) : CheckoutState → Prop
  | init (seats : List Seat) :
      ReachableCheckout pricing (initialCheckoutState pricing seats)
  | seats (st : CheckoutState) (newSeats : List Seat) :
      ReachableCheckout pricing st →
      ReachableCheckout pricing (seatsChanged pricing newSeats st)
  | adjust (st : CheckoutState) (category : AgeCategory) (change : Int) :
      ReachableCheckout pricing st →
      ReachableCheckout pricing (updateTicketQuantity st category change)

/-- Pricing table used by the quantity-cap counterexample. -/
def pricingCE : MoviePricing := generateMoviePricing (.num 1) "M" 0

/-- A reachable state with a stale positive ticket sum: one seat was
selected (resetting the adult quantity to 1) and then deselected — the
reset effect skips empty selections, so the quantities survive. -/
def staleCheckoutState : CheckoutState :=
  seatsChanged pricingCE []
    (seatsChanged pricingCE [Seat.mk "A1" "A" 1 .selected .available]
      (initialCheckoutState pricingCE []))

/-- C2 counterexample: `staleCheckoutState` is reachable by selecting and
deselecting a seat, and after the (always-permitted) decrement
`adjustQuantity(teen, -1)` the ticket sum is 1, strictly above the seat
count 0 — the claimed invariant fails. -/
theorem updateTicketQuantity_cap_counterexample :
    ReachableCheckout pricingCE staleCheckoutState ∧
    totalTicketsSelected
        (updateTicketQuantity staleCheckoutState .teen (-1)).ticketSelections
      > (updateTicketQuantity staleCheckoutState
          .teen (-1)).selectedSeats.length := by
  constructor
  · exact ReachableCheckout.seats _ []
      (ReachableCheckout.seats _ [Seat.mk "A1" "A" 1 .selected .available]
        (ReachableCheckout.init []))
  · decide

/-- Helper: `totalTicketsSelected` is the sum of the quantities. -/
theorem totalTickets_eq_sum (ts : List TicketSelection) :
    totalTicketsSelected ts = (ts.map TicketSelection.quantity).sum := by
  have haux : ∀ (l : List TicketSelection) (a : Nat),
      l.foldl (fun sum selection => sum + selection.quantity) a =
        a + (l.map TicketSelection.quantity).sum := by
    intro l
    induction l with
    | nil => intro a; simp
    | cons x xs ih =>
      intro a
      simp [ih, Nat.add_assoc]
  simpa using haux ts 0

/-- Helper: clamped addition of a signed change never gains more than the
positive part of the change. -/
theorem toNat_add_le (q : Nat) (c : Int) :
    ((q : Int) + c).toNat ≤ q + c.toNat := by
  omega

/-- The shape of the selection list `updateTicketQuantity` produces, with
the refusal condition abstracted as `c`. -/
def mapUpdate (l : List TicketSelection) (category : AgeCategory)
    (change : Int) (c : Prop) [Decidable c] : List TicketSelection :=
  l.map fun selection =>
    if selection.category = category then
      if c then
        { selection with
          quantity := ((selection.quantity : Int) + change).toNat }
      else selection
    else selection

/-- Helper: a refused update leaves the list unchanged. -/
theorem mapUpdate_of_not (l : List TicketSelection) (category : AgeCategory)
    (change : Int) (c : Prop) [Decidable c] (hc : ¬c) :
    mapUpdate l category change c = l := by
  apply list_map_eq_self
  intro s _
  by_cases hcat : s.category = category
  · simp [mapUpdate, if_pos hcat, if_neg hc]
  · simp [mapUpdate, if_neg hcat]

/-- Helper: a decrement never increases the quantity sum. -/
theorem mapUpdate_sum_le_of_nonpos (l : List TicketSelection)
    (category : AgeCategory) (change : Int) (c : Prop) [Decidable c]
    (hneg : change ≤ 0) :
    ((mapUpdate l category change c).map TicketSelection.quantity).sum ≤
      (l.map TicketSelection.quantity).sum := by
  unfold mapUpdate
  rw [List.map_map]
  apply List.sum_le_sum
  intro s _
  by_cases hcat : s.category = category
  · by_cases hcc : c
    · simp only [Function.comp_apply, if_pos hcat, if_pos hcc]
      omega
    · simp [Function.comp_apply, if_pos hcat, if_neg hcc]
  · simp [Function.comp_apply, if_neg hcat]

/-- Helper: with one entry per category, an update raises the quantity sum
by at most the positive part of the change. -/
theorem mapUpdate_sum_le (l : List TicketSelection) (category : AgeCategory)
    (change : Int) (c : Prop) [Decidable c]
    (hnodup : (l.map TicketSelection.category).Nodup) :
    ((mapUpdate l category change c).map TicketSelection.quantity).sum ≤
      (l.map TicketSelection.quantity).sum + change.toNat := by
  induction l with
  | nil => simp [mapUpdate]
  | cons x xs ih =>
    rw [List.map_cons, List.nodup_cons] at hnodup
    obtain ⟨hxnotin, hndtail⟩ := hnodup
    by_cases hcat : x.category = category
    · have hnomatch : ∀ s ∈ xs, ¬(s.category = category) := by
        intro s hs hsc
        exact hxnotin
          (List.mem_map.mpr ⟨s, hs, hsc.trans hcat.symm⟩)
      have htail' : (List.map (fun selection =>
          if selection.category = category then
            if c then
              { selection with
                quantity := ((selection.quantity : Int) + change).toNat }
            else selection
          else selection) xs) = xs := by
        apply list_map_eq_self
        intro s hs
        simp [if_neg (hnomatch s hs)]
      unfold mapUpdate
      simp only [List.map_cons, htail', List.sum_cons]
      by_cases hcc : c
      · simp only [if_pos hcat, if_pos hcc]
        have := toNat_add_le x.quantity change
        omega
      · simp only [if_pos hcat, if_neg hcc]
        omega
    · have hih := ih hndtail
      unfold mapUpdate at hih ⊢
      simp only [List.map_cons, List.sum_cons, if_neg hcat]
      omega

/-- C2 (amended): `adjustQuantity` preserves the cap — in any state with
one selection entry per category (as in every state the component
constructs) whose ticket sum is at most the seat count, the sum stays at
most the seat count after any `adjustQuantity(category, delta)` call:
increments beyond the seat count are refused, quantities are clamped at a
floor of 0, and decrements are always permitted. The invariant is not
unconditional over reachable states: the seat-change reset skips empty
selections, so the sum can exceed a seat count that has dropped to 0. -/
theorem updateTicketQuantity_preserves_cap (st : CheckoutState)
    (category : AgeCategory) (change : Int)
    (hnodup : (st.ticketSelections.map TicketSelection.category).Nodup)
    (hinv : totalTicketsSelected st.ticketSelections ≤
      st.selectedSeats.length) :
    totalTicketsSelected
        (updateTicketQuantity st category change).ticketSelections
      ≤ (updateTicketQuantity st category change).selectedSeats.length := by
  classical
  have hform : (updateTicketQuantity st category change).ticketSelections =
      mapUpdate st.ticketSelections category change
        ((totalTicketsSelected st.ticketSelections : Int) + change ≤
          st.selectedSeats.length ∨ change < 0) := rfl
  have hseats : (updateTicketQuantity st category change).selectedSeats =
      st.selectedSeats := rfl
  rw [hform, hseats, totalTickets_eq_sum]
  rw [totalTickets_eq_sum] at hinv
  by_cases hc : (totalTicketsSelected st.ticketSelections : Int) + change ≤
      st.selectedSeats.length ∨ change < 0
  · by_cases hneg : change < 0
    · exact le_trans
        (mapUpdate_sum_le_of_nonpos st.ticketSelections category change _
          (le_of_lt hneg)) hinv
    · have hle : (totalTicketsSelected st.ticketSelections : Int) + change ≤
          st.selectedSeats.length := hc.resolve_right hneg
      have hbound := mapUpdate_sum_le st.ticketSelections category change
        ((totalTicketsSelected st.ticketSelections : Int) + change ≤
          st.selectedSeats.length ∨ change < 0) hnodup
      rw [totalTickets_eq_sum] at hle
      omega
  · rw [mapUpdate_of_not _ _ _ _ hc]
    exact hinv

/-- Witness for `updateTicketQuantity_preserves_cap`: two seats, one adult
ticket, increment adult by one — the sum stays within the seat count. -/
theorem updateTicketQuantity_preserves_cap_witness :
    totalTicketsSelected
        (updateTicketQuantity
          ⟨[Seat.mk "A1" "A" 1 .selected .available,
            Seat.mk "A2" "A" 2 .selected .available],
           [⟨.adult, 1⟩, ⟨.teen, 0⟩, ⟨.child, 0⟩]⟩ .adult 1).ticketSelections
      ≤ (updateTicketQuantity
          ⟨[Seat.mk "A1" "A" 1 .selected .available,
            Seat.mk "A2" "A" 2 .selected .available],
           [⟨.adult, 1⟩, ⟨.teen, 0⟩, ⟨.child, 0⟩]⟩
          .adult 1).selectedSeats.length :=
  updateTicketQuantity_preserves_cap
    ⟨[Seat.mk "A1" "A" 1 .selected .available,
      Seat.mk "A2" "A" 2 .selected .available],
     [⟨.adult, 1⟩, ⟨.teen, 0⟩, ⟨.child, 0⟩]⟩ .adult 1
    (by decide) (by decide)

/-- C5: for every generated pricing table and every selection of the three
categories, the displayed subtotal is `Σ quantity × categoryPrice` with the
teen price at 0.85× and the child price at 0.6× of the base, the tax is
8% of the subtotal, and the total is their sum. -/
theorem calculateTotals_spec (movieId : MovieId) (movieTitle : String)
    (rand : Nat) (qa qt qc : Nat) :
    (generateMoviePricing movieId movieTitle rand).taxRate = 8 / 100 ∧
    (generateMoviePricing movieId movieTitle rand).tickets.map
        TicketPrice.price =
      [(generateMoviePricing movieId movieTitle rand).basePrice,
       (generateMoviePricing movieId movieTitle rand).basePrice * (85 / 100),
       (generateMoviePricing movieId movieTitle rand).basePrice *
         (60 / 100)] ∧
    (calculateTotals (generateMoviePricing movieId movieTitle rand)
        [⟨.adult, qa⟩, ⟨.teen, qt⟩, ⟨.child, qc⟩]).subtotal =
      qa * (generateMoviePricing movieId movieTitle rand).basePrice +
        qt * ((generateMoviePricing movieId movieTitle rand).basePrice *
          (85 / 100)) +
        qc * ((generateMoviePricing movieId movieTitle rand).basePrice *
          (60 / 100)) ∧
    (calculateTotals (generateMoviePricing movieId movieTitle rand)
        [⟨.adult, qa⟩, ⟨.teen, qt⟩, ⟨.child, qc⟩]).tax =
      (calculateTotals (generateMoviePricing movieId movieTitle rand)
        [⟨.adult, qa⟩, ⟨.teen, qt⟩, ⟨.child, qc⟩]).subtotal * (8 / 100) ∧
    (calculateTotals (generateMoviePricing movieId movieTitle rand)
        [⟨.adult, qa⟩, ⟨.teen, qt⟩, ⟨.child, qc⟩]).total =
      (calculateTotals (generateMoviePricing movieId movieTitle rand)
        [⟨.adult, qa⟩, ⟨.teen, qt⟩, ⟨.child, qc⟩]).subtotal +
      (calculateTotals (generateMoviePricing movieId movieTitle rand)
        [⟨.adult, qa⟩, ⟨.teen, qt⟩, ⟨.child, qc⟩]).tax := by
  refine ⟨rfl, rfl, ?_, rfl, rfl⟩
  simp only [calculateTotals, generateMoviePricing, List.find?, List.foldl]
  norm_num
  simp only [show decide (AgeCategory.adult = AgeCategory.teen) = false from rfl,
    show decide (AgeCategory.adult = AgeCategory.child) = false from rfl,
    show decide (AgeCategory.teen = AgeCategory.child) = false from rfl]
  ring


/-! ## OrderQueueStore (`ticketOrderService`) and BatchCheckout -/

/-- `TicketOrder` record from `TicketQueue`. -/
structure TicketOrder where
  id : String
  movieId : MovieId
  movieTitle : String
  theaterId : Option String
  theaterName : String
  showtime : Option String
  selectedSeats : List Seat
  ticketSelections : List TicketSelection
  pricing : Totals
  createdAt : String
deriving DecidableEq, Repr

/-- `Omit<TicketOrder, 'id' | 'createdAt'>`: the payload handed to
`addOrder`. -/
structure TicketOrderInput where
  movieId : MovieId
  movieTitle : String
  theaterId : Option String
  theaterName : String
  showtime : Option String
  selectedSeats : List Seat
  ticketSelections : List TicketSelection
  pricing : Totals
deriving DecidableEq, Repr

/-- `ticketOrderService.getOrders`: read the backing store under the fixed
key (`stored` is the raw value, `none` when the key is missing), JSON
parsing modelled by the `decode` argument (`none` = `JSON.parse` throws).
A missing key or a failed parse yields `[]`; the parse failure is caught,
logged and swallowed. The second component is the stored value after the
call — reading never writes. -/
def getOrders (decode : String → Option (List TicketOrder))
    (stored : Option String) : List TicketOrder × Option String :=
  match stored with
  | none => ([], stored)
  | some s =>
    match decode s with
    | some orders => (orders, stored)
    | none => ([], stored)

/-- The order record `addOrder` builds: the input payload spread together
with the generated id (`order-${Date.now()}-${random}`, modelled by the
`genId` argument) and the creation timestamp. -/
def mkOrder (order : TicketOrderInput) (genId : String) (now : String) :
    TicketOrder :=
  { id := genId
    movieId := order.movieId
    movieTitle := order.movieTitle
    theaterId := order.theaterId
    theaterName := order.theaterName
    showtime := order.showtime
    selectedSeats := order.selectedSeats
    ticketSelections := order.ticketSelections
    pricing := order.pricing
    createdAt := now }

/-- `ticketOrderService.addOrder`: read the current list, append a new
order carrying the generated id and creation timestamp, persist, and
return the created order with the new stored value. -/
def addOrder (decode : String → Option (List TicketOrder))
    (encode : List TicketOrder → String) (stored : Option String)
    (order : TicketOrderInput) (genId : String) (now : String) :
    TicketOrder × Option String :=
  let orders := (getOrders decode stored).1
  let newOrder : TicketOrder := mkOrder order genId now
  (newOrder, some (encode (orders ++ [newOrder])))

/-- `ticketOrderService.removeOrder`: read the current list, drop every
order whose id matches, persist, and return the resulting list with the
new stored value. -/
def removeOrder (decode : String → Option (List TicketOrder))
    (encode : List TicketOrder → String) (stored : Option String)
    (orderId : String) : List TicketOrder × Option String :=
  let orders := (getOrders decode stored).1
  let updatedOrders := orders.filter fun order => order.id ≠ orderId
  (updatedOrders, some (encode updatedOrders))

/-- `ticketOrderService.clearOrders`: persist the empty list. -/
def clearOrders (encode : List TicketOrder → String)
    (_stored : Option String) : Option String :=
  some (encode [])

/-- `PersistenceError` from the spec's error taxonomy. -/
inductive PersistenceError
  | corruptJson
deriving DecidableEq, Repr

/-- Modelled from the spec: the §7 policy for `PersistenceError` — a
backing-store read whose JSON is corrupt surfaces the failure to the
caller instead of handling it silently. This definition follows the
spec's words (no such error channel exists in the source); it is only
compared against the source-translated `getOrders`. -/
def getOrdersSpecPolicy (decode : String → Option (List TicketOrder))
    (stored : Option String) : Except PersistenceError (List TicketOrder) :=
  match stored with
  | none => .ok []
  | some s =>
    match decode s with
    | some orders => .ok orders
    | none => .error .corruptJson

/-- A decoder that parses only the serialized empty list and reports every
other stored string as corrupt JSON. -/
def decodeEmptyOnly (s : String) : Option (List TicketOrder) :=
  if s = "[]" then some [] else none

/-- C8 counterexample: on a corrupt stored value the code's `getOrders`
silently returns `[]` — exactly what it returns for a missing key, so the
caller cannot observe the failure — while the spec's policy demands a
`PersistenceError`. -/
theorem getOrders_corrupt_counterexample :
    (getOrders decodeEmptyOnly (some "not json")).1 = [] ∧
    (getOrders decodeEmptyOnly (some "not json")).1 =
      (getOrders decodeEmptyOnly none).1 ∧
    getOrdersSpecPolicy decodeEmptyOnly (some "not json") =
      .error .corruptJson := by
  refine ⟨rfl, rfl, rfl⟩

/-- C8 (amended): a backing-store read with corrupt JSON is caught inside
`getOrders`, which silently returns the empty list and leaves the stored
value untouched; no `PersistenceError` reaches the caller, although the
spec's policy (modelled by `getOrdersSpecPolicy`) would surface one. -/
theorem getOrders_corrupt_swallowed
    (decode : String → Option (List TicketOrder)) (s : String)
    (hcorrupt : decode s = none) :
    (getOrders decode (some s)).1 = [] ∧
    (getOrders decode (some s)).2 = some s ∧
    getOrdersSpecPolicy decode (some s) = .error .corruptJson := by
  refine ⟨?_, ?_, ?_⟩ <;> simp [getOrders, getOrdersSpecPolicy, hcorrupt]

/-- Witness for `getOrders_corrupt_swallowed` at a concrete corrupt
store. -/
theorem getOrders_corrupt_swallowed_witness :
    (getOrders decodeEmptyOnly (some "oops")).1 = [] ∧
    (getOrders decodeEmptyOnly (some "oops")).2 = some "oops" ∧
    getOrdersSpecPolicy decodeEmptyOnly (some "oops") =
      .error .corruptJson :=
  getOrders_corrupt_swallowed decodeEmptyOnly "oops" (by decide)

/-- C10: `getOrders` is total over every backing-store content: the read
never writes (the stored value is returned untouched), a missing key
yields `[]`, an unparsable value yields `[]`, and a parsable value yields
the parsed list. -/
theorem getOrders_total (decode : String → Option (List TicketOrder))
    (stored : Option String) :
    (getOrders decode stored).2 = stored ∧
    (stored = none → (getOrders decode stored).1 = []) ∧
    (∀ s, stored = some s → decode s = none →
      (getOrders decode stored).1 = []) ∧
    (∀ s orders, stored = some s → decode s = some orders →
      (getOrders decode stored).1 = orders) := by
  refine ⟨?_, ?_, ?_, ?_⟩
  · cases stored with
    | none => rfl
    | some s =>
      cases h : decode s <;> simp [getOrders, h]
  · intro h
    subst h
    rfl
  · intro s hs hd
    subst hs
    simp [getOrders, hd]
  · intro s orders hs hd
    subst hs
    simp [getOrders, hd]

/-- Witness for `getOrders_total` on a missing key. -/
theorem getOrders_total_witness :
    (getOrders decodeEmptyOnly none).2 = none ∧
    (getOrders decodeEmptyOnly none).1 = [] := by
  have h := getOrders_total decodeEmptyOnly none
  exact ⟨h.1, h.2.1 rfl⟩

/-- Helper: filtering out an id absent from a list keeps the list. -/
theorem filter_ne_id_of_not_mem (orders : List TicketOrder)
    (orderId : String) (habs : orderId ∉ orders.map TicketOrder.id) :
    (orders.filter fun order => order.id ≠ orderId) = orders := by
  apply List.filter_eq_self.mpr
  intro o ho
  have hne : o.id ≠ orderId := fun hc =>
    habs (List.mem_map.mpr ⟨o, ho, hc⟩)
  simpa using hne

/-- C6: over any stored list with unique ids and a freshly generated id
(the generator is collision-resistant), `addOrder` then `removeOrder` of
the generated id restores the pre-add list exactly, in content and order;
and `removeOrder` of an absent id is an error-free no-op returning the
list unchanged. The JSON layer (a browser library, not part of the
source) is assumed to round-trip the one list the add writes. -/
theorem addOrder_removeOrder_roundtrip
    (decode : String → Option (List TicketOrder))
    (encode : List TicketOrder → String)
    (stored : Option String) (input : TicketOrderInput) (genId now : String)
    (hcodec : decode (encode ((getOrders decode stored).1 ++
        [mkOrder input genId now])) =
      some ((getOrders decode stored).1 ++ [mkOrder input genId now]))
    (_hnodup : ((getOrders decode stored).1.map TicketOrder.id).Nodup)
    (hfresh : genId ∉ (getOrders decode stored).1.map TicketOrder.id) :
    (removeOrder decode encode
        (addOrder decode encode stored input genId now).2 genId).1 =
      (getOrders decode stored).1 ∧
    (∀ orderId, orderId ∉ (getOrders decode stored).1.map TicketOrder.id →
      (removeOrder decode encode stored orderId).1 =
        (getOrders decode stored).1) := by
  constructor
  · have hread : (getOrders decode
        ((addOrder decode encode stored input genId now).2)).1 =
        (getOrders decode stored).1 ++ [mkOrder input genId now] := by
      have h2 : (addOrder decode encode stored input genId now).2 =
          some (encode ((getOrders decode stored).1 ++
            [mkOrder input genId now])) := rfl
      rw [h2]
      generalize ((getOrders decode stored).1 ++
        [mkOrder input genId now]) = L at hcodec ⊢
      simp [getOrders, hcodec]
    show ((getOrders decode
        ((addOrder decode encode stored input genId now).2)).1.filter
          fun order => order.id ≠ genId) = (getOrders decode stored).1
    rw [hread, List.filter_append, filter_ne_id_of_not_mem _ _ hfresh]
    have hid : (mkOrder input genId now).id = genId := rfl
    simp [List.filter_cons, hid]
  · intro orderId habs
    show ((getOrders decode stored).1.filter
        fun order => order.id ≠ orderId) = (getOrders decode stored).1
    exact filter_ne_id_of_not_mem _ _ habs

/-- Toy codec for the round-trip witness: it decodes exactly the one
string the witness's add writes. -/
def decodeOne (s : String) : Option (List TicketOrder) :=
  if s = "one" then
    some [mkOrder ⟨.num 1, "M", none, "T", none, [], [], ⟨0, 0, 0⟩⟩
      "order-1" "2024"]
  else none

/-- Encoder matching `decodeOne` on the witness's list. -/
def encodeOne (_l : List TicketOrder) : String :=
  "one"

/-- Witness for `addOrder_removeOrder_roundtrip`: adding to an empty store
and removing the generated id yields the empty list again. -/
theorem addOrder_removeOrder_roundtrip_witness :
    (removeOrder decodeOne encodeOne
        (addOrder decodeOne encodeOne none
          ⟨.num 1, "M", none, "T", none, [], [], ⟨0, 0, 0⟩⟩
          "order-1" "2024").2 "order-1").1 = [] := by
  have h := addOrder_removeOrder_roundtrip decodeOne encodeOne
    none ⟨.num 1, "M", none, "T", none, [], [], ⟨0, 0, 0⟩⟩ "order-1" "2024"
    (by decide) (by decide) (by decide)
  exact h.1

/-- The three `paymentStep` values of `BatchCheckout`. -/
inductive PaymentStep
  | select
  | payment
  | confirmation
deriving DecidableEq, Repr

/-- The `BatchCheckout` component state the handlers touch. -/
structure BatchState where
  selectedOrderIds : List String
  paymentStep : PaymentStep
  availableOrders : List TicketOrder
deriving DecidableEq, Repr

/-- Mounting `BatchCheckout`: every passed order pre-selected, `select`
step, working list = the passed orders. -/
def initBatchState (orders : List TicketOrder) : BatchState :=
  { selectedOrderIds := orders.map TicketOrder.id
    paymentStep := .select
    availableOrders := orders }

/-- `toggleOrderSelection`: drop the id if selected, else append it. -/
def toggleOrderSelection (st : BatchState) (orderId : String) : BatchState :=
  if orderId ∈ st.selectedOrderIds then
    { st with
      selectedOrderIds := st.selectedOrderIds.filter fun id => id ≠ orderId }
  else
    { st with selectedOrderIds := st.selectedOrderIds ++ [orderId] }

/-- `toggleSelectAll`: clear when everything is selected, else select the
whole working list. -/
def toggleSelectAll (st : BatchState) : BatchState :=
  if st.selectedOrderIds.length = st.availableOrders.length then
    { st with selectedOrderIds := [] }
  else
    { st with selectedOrderIds := st.availableOrders.map TicketOrder.id }

/-- `handleDeleteSelected`: early-return on an empty selection; otherwise
keep only the working-list orders whose id is not selected, and clear the
selection. -/
def handleDeleteSelected (st : BatchState) : BatchState :=
  if st.selectedOrderIds.length = 0 then st
  else
    { st with
      availableOrders := st.availableOrders.filter fun order =>
        ¬ order.id ∈ st.selectedOrderIds
      selectedOrderIds := [] }

/-- A batch-checkout session as the page sees it: the component state
together with the order-queue store contents. `handleDeleteSelected`
never calls `ticketOrderService`, so the store component is carried
through untouched. -/
structure BatchSession where
  batch : BatchState
  store : List TicketOrder
deriving DecidableEq, Repr

/-- `deleteSelected` at session level: only the component state changes. -/
def sessionDeleteSelected (s : BatchSession) : BatchSession :=
  { s with batch := handleDeleteSelected s.batch }

/-- Concrete order `A` for the batch-prune scenario. -/
def orderA : TicketOrder :=
  ⟨"A", .num 1, "Alpha", none, "T1", none, [], [], ⟨10, 0, 10⟩, "t1"⟩

/-- Concrete order `B` for the batch-prune scenario. -/
def orderB : TicketOrder :=
  ⟨"B", .num 2, "Beta", none, "T1", none, [], [], ⟨11, 0, 11⟩, "t2"⟩

/-- Concrete order `C` for the batch-prune scenario. -/
def orderC : TicketOrder :=
  ⟨"C", .num 3, "Gamma", none, "T1", none, [], [], ⟨12, 0, 12⟩, "t3"⟩

/-- C7: in the `select` state, `deleteSelected` removes exactly the
currently-selected orders from the local working list and clears the
selection while the order-queue store is untouched; in particular with
`[A, B, C]` all pre-selected, `toggleOrder(B.id)` then `deleteSelected`
leaves exactly `[B]` in the working list. -/
theorem handleDeleteSelected_spec (s : BatchSession)
    (hstep : s.batch.paymentStep = .select) :
    (sessionDeleteSelected s).store = s.store ∧
    (sessionDeleteSelected s).batch.availableOrders =
      s.batch.availableOrders.filter
        (fun order => ¬ order.id ∈ s.batch.selectedOrderIds) ∧
    (sessionDeleteSelected s).batch.selectedOrderIds = [] ∧
    (sessionDeleteSelected s).batch.paymentStep = .select ∧
    (handleDeleteSelected
        (toggleOrderSelection (initBatchState [orderA, orderB, orderC])
          "B")).availableOrders = [orderB] := by
  refine ⟨rfl, ?_, ?_, ?_, by decide⟩
  · show (handleDeleteSelected s.batch).availableOrders = _
    unfold handleDeleteSelected
    by_cases h0 : s.batch.selectedOrderIds.length = 0
    · rw [if_pos h0]
      have hempty : s.batch.selectedOrderIds = [] :=
        List.length_eq_zero.mp h0
      rw [hempty]
      exact (List.filter_eq_self.mpr fun o _ => by simp).symm
    · rw [if_neg h0]
  · show (handleDeleteSelected s.batch).selectedOrderIds = []
    unfold handleDeleteSelected
    by_cases h0 : s.batch.selectedOrderIds.length = 0
    · rw [if_pos h0]
      exact List.length_eq_zero.mp h0
    · rw [if_neg h0]
  · show (handleDeleteSelected s.batch).paymentStep = .select
    unfold handleDeleteSelected
    by_cases h0 : s.batch.selectedOrderIds.length = 0
    · rw [if_pos h0]
      exact hstep
    · rw [if_neg h0]
      exact hstep

/-- Witness for `handleDeleteSelected_spec`: the `[A, B, C]` session with
`B` deselected; deleting leaves `[B]` and the store is untouched. -/
theorem handleDeleteSelected_spec_witness :
    (sessionDeleteSelected
        ⟨toggleOrderSelection (initBatchState [orderA, orderB, orderC]) "B",
         [orderA, orderB, orderC]⟩).store = [orderA, orderB, orderC] ∧
    (sessionDeleteSelected
        ⟨toggleOrderSelection (initBatchState [orderA, orderB, orderC]) "B",
         [orderA, orderB, orderC]⟩).batch.selectedOrderIds = [] :=
  ⟨(handleDeleteSelected_spec
      ⟨toggleOrderSelection (initBatchState [orderA, orderB, orderC]) "B",
       [orderA, orderB, orderC]⟩ (by decide)).1,
   (handleDeleteSelected_spec
      ⟨toggleOrderSelection (initBatchState [orderA, orderB, orderC]) "B",
       [orderA, orderB, orderC]⟩ (by decide)).2.2.1⟩
